import Mathlib

/-!
Verification of the user-management REST API of SIT753-7.3HD.

The repository ships its Express server bootstrap (`server.js`, embedded in
`tests/setup.js` after the document separator), its Jest test suite
(`tests/app.test.js`), and infrastructure files.  The route module
(`src/app.js`) and the Mongoose model (`src/models/User.js`) are not part of
the provided sources, so the CRUD handlers, the validation rules, the query
builder and the response envelope are modelled from the specification
(sections 3, 4.1-4.4 and 7 of `spec.md`).  Everything at the server level —
the `express.json` body parser with its `10mb` limit, the middleware order,
the catch-all 404 handler and the final error middleware — is embedded
directly from the `server.js` source.

The embedding is executable: stores are lists of user records, responses are
a small JSON value type, and every handler is a total computable function.
-/

/-- A JSON-like value, the codomain of every serialized response body. -/
inductive Json where
  | str : String → Json
  | num : Nat → Json
  | bool : Bool → Json
  | arr : List Json → Json
  | obj : List (String × Json) → Json

/-- Field lookup on a JSON object; `none` on non-objects and absent keys. -/
def Json.lookup : Json → String → Option Json
  | .obj fs, k => List.lookup k fs
  | _, _ => none

/-- The keys of a JSON object (empty for non-objects). -/
def Json.keys : Json → List String
  | .obj fs => fs.map Prod.fst
  | _ => []

/-- An HTTP response: a status code and a JSON body. -/
structure ApiResponse where
  status : Nat
  body : Json

/-- Modelled from the spec: the `User` entity of section 3 — `id` assigned by
the store, `name`, `email`, write-only `password`, `isActive`, and the two
timestamps (the Mongoose model `src/models/User.js` is not in the provided
sources). -/
structure User where
  id : Nat
  name : String
  email : String
  password : String
  isActive : Bool
  createdAt : Nat
  updatedAt : Nat

/-- Modelled from the spec: the persistent document store (the external
collaborator of section 1), as the list of stored records plus the next
identifier the store will assign. -/
structure Store where
  users : List User
  nextId : Nat

/-- The empty store. -/
def emptyStore : Store := ⟨[], 1⟩

/-- Modelled from the spec: a raw create payload `{name, email, password}`
(section 6); every field may be absent. -/
structure CreatePayload where
  name : Option String
  email : Option String
  password : Option String

/-- Modelled from the spec: a raw update payload, any subset of
`{name, email, password}` (section 6). -/
structure UpdatePayload where
  name : Option String
  email : Option String
  password : Option String

/-- Modelled from the spec: list-request parameters `page`, `limit`,
`search` (section 4.2); absent parameters are `none`. -/
structure ListQuery where
  page : Option Nat
  limit : Option Nat
  search : Option String

/-- A single field-level violation, the `{field, message}` pair of
section 4.1. -/
structure Violation where
  field : String
  message : String
deriving DecidableEq

/-- Character-level whitespace test used by the trimming normalization. -/
def isSpaceChar (c : Char) : Bool :=
  c == ' ' || c == '\t' || c == '\n' || c == '\r'

/-- Trim leading and trailing whitespace from a string. -/
def trimChars (s : String) : String :=
  ⟨((s.data.dropWhile isSpaceChar).reverse.dropWhile isSpaceChar).reverse⟩

/-- Lower-case every character of a string. -/
def lowerString (s : String) : String :=
  ⟨s.data.map Char.toLower⟩

/-- Split a character list at every occurrence of the separator. -/
def splitOnChar (sep : Char) : List Char → List (List Char)
  | [] => [[]]
  | c :: t =>
    let r := splitOnChar sep t
    if c == sep then [] :: r
    else
      match r with
      | [] => [[c]]
      | h :: t' => (c :: h) :: t'

/-- Modelled from the spec: the email grammar of section 4.1 — exactly one
`@` separating a non-empty local part from a non-empty domain whose
dot-separated segments are all non-empty. -/
def isValidEmail (s : String) : Bool :=
  match splitOnChar '@' s.data with
  | [lp, dp] =>
    !lp.isEmpty && !dp.isEmpty && dp.contains '.' &&
      (splitOnChar '.' dp).all (fun seg => !seg.isEmpty)
  | _ => false

/-- Modelled from the spec: create-time validation (section 4.1) — `name`
required and non-empty after trimming, `email` required and matching the
email grammar, `password` required with minimum length 6; the result is the
list of `{field, message}` violations, empty when the payload is valid. -/
def validateCreate (p : CreatePayload) : List Violation :=
  (match p.name with
   | none => [⟨"name", "Name is required"⟩]
   | some n => if (trimChars n).data.isEmpty then [⟨"name", "Name cannot be empty"⟩] else []) ++
  (match p.email with
   | none => [⟨"email", "Email is required"⟩]
   | some e => if isValidEmail e then [] else [⟨"email", "Invalid email format"⟩]) ++
  (match p.password with
   | none => [⟨"password", "Password is required"⟩]
   | some w => if w.data.length < 6 then [⟨"password", "Password must be at least 6 characters"⟩] else [])

/-- Modelled from the spec: update-time validation (section 4.1) — every
field optional, but a present field must satisfy the create-time rule. -/
def validateUpdate (p : UpdatePayload) : List Violation :=
  (match p.name with
   | none => []
   | some n => if (trimChars n).data.isEmpty then [⟨"name", "Name cannot be empty"⟩] else []) ++
  (match p.email with
   | none => []
   | some e => if isValidEmail e then [] else [⟨"email", "Invalid email format"⟩]) ++
  (match p.password with
   | none => []
   | some w => if w.data.length < 6 then [⟨"password", "Password must be at least 6 characters"⟩] else [])

/-- Modelled from the spec: normalized name of a create payload (trimmed,
section 4.1). -/
def nameNorm (p : CreatePayload) : String := trimChars (p.name.getD "")

/-- Modelled from the spec: normalized email of a create payload
(lower-cased, section 4.1). -/
def emailNorm (p : CreatePayload) : String := lowerString (p.email.getD "")

/-- Serialize a list of violations to the JSON `details` array of
`{field, message}` objects. -/
def violationsJson (vs : List Violation) : Json :=
  .arr (vs.map (fun v => .obj [("field", .str v.field), ("message", .str v.message)]))

/-- Modelled from the spec: the success envelope `{success: true, data}`
(section 4.3). -/
def envSuccess (d : Json) : Json :=
  .obj [("success", .bool true), ("data", d)]

/-- Modelled from the spec: the list-success envelope extended with the
`pagination` descriptor (section 4.3). -/
def envSuccessList (d pg : Json) : Json :=
  .obj [("success", .bool true), ("data", d), ("pagination", pg)]

/-- Modelled from the spec: the failure envelope `{success: false, error}`
(section 4.3). -/
def envFailure (msg : String) : Json :=
  .obj [("success", .bool false), ("error", .str msg)]

/-- Modelled from the spec: the failure envelope extended with the
violation `details` list (section 4.3). -/
def envFailureDetails (msg : String) (det : Json) : Json :=
  .obj [("success", .bool false), ("error", .str msg), ("details", det)]

/-- Modelled from the spec: the password-excluding projection of section
4.2 / glossary — a stored record serialized without its `password` field. -/
def serializeUser (u : User) : Json :=
  .obj [("_id", .num u.id), ("name", .str u.name), ("email", .str u.email),
        ("isActive", .bool u.isActive), ("createdAt", .num u.createdAt),
        ("updatedAt", .num u.updatedAt)]

/-- Does the character list `n` occur at the head of `h`? -/
def seqStartsWith : List Char → List Char → Bool
  | [], _ => true
  | _ :: _, [] => false
  | a :: as, b :: bs => a == b && seqStartsWith as bs

/-- Does the character list `n` occur contiguously anywhere inside `h`? -/
def seqContains (n : List Char) : List Char → Bool
  | [] => n.isEmpty
  | c :: t => seqStartsWith n (c :: t) || seqContains n t

/-- Case-insensitive substring test on strings. -/
def containsCI (hay needle : String) : Bool :=
  seqContains (lowerString needle).data (lowerString hay).data

/-- Modelled from the spec: the search predicate of section 4.2 — the term
matches a record when it is a case-insensitive substring of the record's
`name` OR `email`. -/
def matchesSearch (t : String) (u : User) : Bool :=
  containsCI u.name t || containsCI u.email t

/-- Modelled from the spec: the matched set of a list request — all records
when no search term is given, otherwise the records matching it. -/
def matchedUsers (sr : Option String) (users : List User) : List User :=
  match sr with
  | none => users
  | some t => users.filter (matchesSearch t)

/-- Modelled from the spec: `pages = ceil(total / limit)` of section 4.2,
computed the way `Math.ceil(total / limit)` behaves on naturals. -/
def pagesFor (total limit : Nat) : Nat := (total + limit - 1) / limit

/-- Modelled from the spec: the list handler (sections 4.2 and 4.4) —
defaults `page = 1` and `limit = 10`, skip/take window, password-excluding
projection, and the `{page, limit, total, pages}` pagination descriptor. -/
def listUsers (q : ListQuery) (s : Store) : ApiResponse :=
  let page := q.page.getD 1
  let limit := q.limit.getD 10
  let matched := matchedUsers q.search s.users
  let total := matched.length
  let window := (matched.drop ((page - 1) * limit)).take limit
  ⟨200, envSuccessList (.arr (window.map serializeUser))
    (.obj [("page", .num page), ("limit", .num limit),
           ("total", .num total), ("pages", .num (pagesFor total limit))])⟩

/-- Modelled from the spec: the get-by-id handler (section 4.4) — 200 with
the projected record, or 404 `NotFound`. -/
def getUser (id : Nat) (s : Store) : ApiResponse :=
  match s.users.find? (fun u => u.id == id) with
  | some u => ⟨200, envSuccess (serializeUser u)⟩
  | none => ⟨404, envFailure "User not found"⟩

/-- Modelled from the spec: the record the store assembles at creation —
store-assigned `id`, normalized fields, `isActive` defaulting to `true`,
both timestamps set to the request time (section 3). -/
def newUser (p : CreatePayload) (s : Store) (now : Nat) : User :=
  ⟨s.nextId, nameNorm p, emailNorm p, p.password.getD "", true, now, now⟩

/-- Modelled from the spec: the create handler (sections 4.1, 4.4 and 7) —
validation first (400 with details on any violation, store untouched), then
the email-uniqueness check (409 `DuplicateKey`, store untouched), then the
insert with store-assigned id and timestamps (201 with the projected
record). -/
def createUser (p : CreatePayload) (s : Store) (now : Nat) : ApiResponse × Store :=
  if (validateCreate p).isEmpty then
    if s.users.any (fun u => u.email == emailNorm p) then
      (⟨409, envFailure "Email already exists"⟩, s)
    else
      (⟨201, envSuccess (serializeUser (newUser p s now))⟩,
       ⟨s.users ++ [newUser p s now], s.nextId + 1⟩)
  else
    (⟨400, envFailureDetails "Validation failed" (violationsJson (validateCreate p))⟩, s)

/-- Modelled from the spec: the mutation the update operation applies — the
present fields are replaced (normalized) and `updatedAt` is refreshed, while
`id` and `createdAt` stay untouched (sections 3 and 4.4). -/
def updatedRecord (u : User) (p : UpdatePayload) (now : Nat) : User :=
  { u with
    name := match p.name with | some n => trimChars n | none => u.name
    email := match p.email with | some e => lowerString e | none => u.email
    password := p.password.getD u.password
    updatedAt := now }

/-- Modelled from the spec: the update handler dispatching on validation and
lookup (section 4.4). -/
def updateUser (id : Nat) (p : UpdatePayload) (s : Store) (now : Nat) : ApiResponse × Store :=
  if (validateUpdate p).isEmpty then
    match s.users.find? (fun u => u.id == id) with
    | none => (⟨404, envFailure "User not found"⟩, s)
    | some u =>
      (⟨200, envSuccess (serializeUser (updatedRecord u p now))⟩,
       ⟨s.users.map (fun v => if v.id == id then updatedRecord u p now else v), s.nextId⟩)
  else
    (⟨400, envFailureDetails "Validation failed" (violationsJson (validateUpdate p))⟩, s)

/-- Modelled from the spec: the delete handler (section 4.4) — 200 with a
snapshot of the deleted record and a hard delete from the store, or 404. -/
def deleteUser (id : Nat) (s : Store) : ApiResponse × Store :=
  match s.users.find? (fun u => u.id == id) with
  | some u =>
    (⟨200, envSuccess (serializeUser u)⟩,
     ⟨s.users.filter (fun v => !(v.id == id)), s.nextId⟩)
  | none => (⟨404, envFailure "User not found"⟩, s)

/-- Availability of the external store: up, or down with an internal
diagnostic message that must never reach the caller. -/
inductive StoreStatus where
  | up : StoreStatus
  | down : String → StoreStatus

/-- Modelled from the spec: one CRUD request of the `/api` surface
(section 6). -/
inductive ApiRequest where
  | list : ListQuery → ApiRequest
  | get : Nat → ApiRequest
  | create : CreatePayload → ApiRequest
  | update : Nat → UpdatePayload → ApiRequest
  | delete : Nat → ApiRequest

/-- Modelled from the spec: the handler boundary (sections 4.4 and 7) —
every operation is dispatched under a catch-all that converts a store
failure into the 500 failure envelope with a fixed message, leaking no
internal detail. -/
def dispatch (st : StoreStatus) (r : ApiRequest) (s : Store) (now : Nat) : ApiResponse × Store :=
  match st with
  | .down _ => (⟨500, envFailure "Internal server error"⟩, s)
  | .up =>
    match r with
    | .list q => (listUsers q s, s)
    | .get id => (getUser id s, s)
    | .create p => createUser p s now
    | .update id p => updateUser id p s now
    | .delete id => deleteUser id s

/-- The `express.json` body-size limit of `server.js`: `10mb`, i.e.
`10 * 1024 * 1024` bytes. -/
def jsonBodyLimit : Nat := 10485760

/-- The route a request resolves to: the `/api` surface carrying a parsed
CRUD request, or any path matching no registered route. -/
inductive Route where
  | api : ApiRequest → Route
  | other : String → Route

/-- A raw inbound request as the `server.js` middleware chain sees it: its
route, the body-parser outcome (`some msg` when the body is not parseable
as JSON), and the body size in bytes. -/
structure RawRequest where
  route : Route
  parseErr : Option String
  bodySize : Nat

/-- The body produced by the `server.js` error middleware outside
development mode: `{error: message, timestamp}` — note the absence of a
`success` field. -/
def errorMiddlewareBody (msg : String) (now : Nat) : Json :=
  .obj [("error", .str msg), ("timestamp", .num now)]

/-- The body produced by the `server.js` catch-all 404 handler:
`{error, message, timestamp}` — note the absence of a `success` field. -/
def notFoundBody (path : String) (now : Nat) : Json :=
  .obj [("error", .str "Not Found"),
        ("message", .str ("Route " ++ path ++ " not found")),
        ("timestamp", .num now)]

/-- The `server.js` middleware pipeline in source order: the `express.json`
body parser (size limit first, then JSON well-formedness, each failure
flowing to the error middleware), then the `/api` router, then the
catch-all 404 handler.  The third component records whether a CRUD handler
ran. -/
def serverPipeline (st : StoreStatus) (req : RawRequest) (s : Store) (now : Nat) :
    ApiResponse × Store × Bool :=
  if jsonBodyLimit < req.bodySize then
    (⟨413, errorMiddlewareBody "request entity too large" now⟩, s, false)
  else
    match req.parseErr with
    | some m => (⟨400, errorMiddlewareBody m now⟩, s, false)
    | none =>
      match req.route with
      | .api r =>
        let out := dispatch st r s now
        (out.1, out.2, true)
      | .other p => (⟨404, notFoundBody p now⟩, s, false)

/-- Does a JSON body carry the mandatory envelope: a boolean `success` key,
with `data` present on success and `error` present on failure? -/
def isEnvelope (j : Json) : Bool :=
  match j.lookup "success" with
  | some (.bool true) => (j.lookup "data").isSome
  | some (.bool false) => (j.lookup "error").isSome
  | _ => false

/-- A deterministic test user, mirroring the seed records of the test
suite. -/
def mkTestUser (i : Nat) : User :=
  ⟨i, "User " ++ toString i, "user" ++ toString i ++ "@example.com",
   "password123", true, 0, 0⟩

/-- A store holding `n` distinct test users. -/
def storeOf (n : Nat) : Store :=
  ⟨(List.range n).map (fun i => mkTestUser (i + 1)), n + 1⟩

/-- The number of records in a response's `data` array. -/
def dataLen (r : ApiResponse) : Nat :=
  match r.body.lookup "data" with
  | some (.arr l) => l.length
  | _ => 0

/-- A field of a response's `pagination` descriptor. -/
def pagField (r : ApiResponse) (k : String) : Option Json :=
  (r.body.lookup "pagination").bind (fun j => j.lookup k)

/-- The two-user store of the search test: John Doe and Jane Smith. -/
def johnJaneStore : Store :=
  ⟨[⟨1, "John Doe", "john@example.com", "password123", true, 0, 0⟩,
    ⟨2, "Jane Smith", "jane@example.com", "password123", true, 0, 0⟩], 3⟩

/-! ### Small computation lemmas about the envelopes -/

/-- A failure envelope carries no `data` key. -/
theorem lookup_envFailure_data (m : String) : (envFailure m).lookup "data" = none := rfl

/-- A detailed failure envelope carries no `data` key. -/
theorem lookup_envFailureDetails_data (m : String) (det : Json) :
    (envFailureDetails m det).lookup "data" = none := rfl

/-- A success envelope exposes its payload under `data`. -/
theorem lookup_envSuccess_data (d : Json) : (envSuccess d).lookup "data" = some d := rfl

/-- A list-success envelope exposes its payload under `data`. -/
theorem lookup_envSuccessList_data (d pg : Json) :
    (envSuccessList d pg).lookup "data" = some d := rfl

/-- The key set of a projected user record, for every record. -/
theorem keys_serializeUser (u : User) :
    (serializeUser u).keys = ["_id", "name", "email", "isActive", "createdAt", "updatedAt"] := rfl

/-! ### Theorems for the claims settled by the `server.js` source -/

/-- C3: the claim says every response body produced by the API carries a
boolean `success` field, but the `server.js` error middleware and catch-all
404 handler (present in the sources) do not emit one: a malformed-JSON
request to the `/api` surface is answered with status 400 and a
`{error, timestamp}` body with no `success` key, and an unmatched route is
answered with status 404 and a `{error, message, timestamp}` body with no
`success` key — contradicting the repository's own test that expects
`success == false` for malformed JSON. -/
theorem malformed_json_response_lacks_success :
    (serverPipeline .up
      ⟨.api (.create ⟨some "Test", some "test@example.com", none⟩),
       some "Unexpected end of JSON input", 44⟩ emptyStore 0).1.status = 400 ∧
    ((serverPipeline .up
      ⟨.api (.create ⟨some "Test", some "test@example.com", none⟩),
       some "Unexpected end of JSON input", 44⟩ emptyStore 0).1.body).lookup "success" = none ∧
    (serverPipeline .up ⟨.other "/unknown", none, 0⟩ emptyStore 0).1.status = 404 ∧
    ((serverPipeline .up ⟨.other "/unknown", none, 0⟩ emptyStore 0).1.body).lookup "success" = none :=
  ⟨rfl, rfl, rfl, rfl⟩

/-- C7: every CRUD dispatch outcome is wrapped in the response envelope, no
raw exception escapes the handler boundary, and a store failure yields the
constant 500 failure envelope — the same response for every internal
diagnostic, so no internal detail reaches the caller — with the store
untouched. -/
theorem store_failure_hidden_and_wrapped (st : StoreStatus) (r : ApiRequest) (s : Store)
    (now : Nat) (m : String) :
    isEnvelope (dispatch st r s now).1.body = true ∧
    dispatch (.down m) r s now = (⟨500, envFailure "Internal server error"⟩, s) ∧
    dispatch (.down m) r s now = dispatch (.down "") r s now := by
  refine ⟨?_, rfl, rfl⟩
  cases st with
  | down msg => rfl
  | up =>
    cases r with
    | list q => rfl
    | get id =>
      show isEnvelope (getUser id s).body = true
      unfold getUser
      split <;> rfl
    | create p =>
      show isEnvelope (createUser p s now).1.body = true
      unfold createUser
      split
      · split <;> rfl
      · rfl
    | update id p =>
      show isEnvelope (updateUser id p s now).1.body = true
      unfold updateUser
      split
      · split <;> rfl
      · rfl
    | delete id =>
      show isEnvelope (deleteUser id s).1.body = true
      unfold deleteUser
      split <;> rfl

/-- C8: a request whose body is not parseable as JSON is answered by the
body parser's 400 failure before any routing, validation or handler logic
runs — the store is unchanged and no CRUD handler is invoked. -/
theorem malformed_json_rejected_before_handlers (st : StoreStatus) (rt : Route) (m : String)
    (sz : Nat) (s : Store) (now : Nat) (hsz : sz ≤ jsonBodyLimit) :
    serverPipeline st ⟨rt, some m, sz⟩ s now = (⟨400, errorMiddlewareBody m now⟩, s, false) := by
  unfold serverPipeline
  rw [if_neg (Nat.not_lt.mpr hsz)]

/-- Witness for C8 at a concrete malformed request. -/
theorem malformed_json_rejected_witness :
    serverPipeline .up
      ⟨.api (.create ⟨none, none, none⟩), some "Unexpected token", 30⟩ emptyStore 7 =
      (⟨400, errorMiddlewareBody "Unexpected token" 7⟩, emptyStore, false) :=
  malformed_json_rejected_before_handlers .up (.api (.create ⟨none, none, none⟩))
    "Unexpected token" 30 emptyStore 7 (by decide)

/-- C10: a body strictly larger than the `10mb` limit is rejected with an
error response before any handler runs and without touching the store,
while a well-formed body at or below the limit is delivered to the CRUD
handlers. -/
theorem body_size_limit_10mb (st : StoreStatus) (req : RawRequest) (s : Store) (now : Nat)
    (r : ApiRequest) :
    (jsonBodyLimit < req.bodySize →
      serverPipeline st req s now =
        (⟨413, errorMiddlewareBody "request entity too large" now⟩, s, false)) ∧
    (req.bodySize ≤ jsonBodyLimit → req.parseErr = none → req.route = .api r →
      serverPipeline st req s now =
        ((dispatch st r s now).1, (dispatch st r s now).2, true)) := by
  constructor
  · intro h
    unfold serverPipeline
    rw [if_pos h]
  · intro h1 h2 h3
    unfold serverPipeline
    rw [if_neg (Nat.not_lt.mpr h1), h2, h3]

/-- Witness for C10: an 10485761-byte body is rejected before the handler,
a small body reaches the get handler. -/
theorem body_size_limit_10mb_witness :
    serverPipeline .up ⟨.api (.get 1), none, 10485761⟩ emptyStore 0 =
      (⟨413, errorMiddlewareBody "request entity too large" 0⟩, emptyStore, false) ∧
    serverPipeline .up ⟨.api (.get 1), none, 0⟩ emptyStore 0 =
      (getUser 1 emptyStore, emptyStore, true) :=
  ⟨(body_size_limit_10mb .up ⟨.api (.get 1), none, 10485761⟩ emptyStore 0 (.get 1)).1 (by decide),
   (body_size_limit_10mb .up ⟨.api (.get 1), none, 0⟩ emptyStore 0 (.get 1)).2 (by decide) rfl rfl⟩

/-- A get on a store whose lookup misses yields the 404 failure. -/
theorem getUser_eq_notFound (id : Nat) (s : Store)
    (h : s.users.find? (fun v => v.id == id) = none) :
    getUser id s = ⟨404, envFailure "User not found"⟩ := by
  unfold getUser
  rw [h]

/-- After filtering out every record with the given id, a lookup for that id
misses. -/
theorem find?_filter_ne (l : List User) (id : Nat) :
    (l.filter (fun v => !(v.id == id))).find? (fun v => v.id == id) = none := by
  rw [List.find?_eq_none]
  intro x hx
  have h2 : (x.id == id) = false := by simpa using (List.mem_filter.mp hx).2
  simp [h2]

/-- C1: the payload of every successful create and every successful
get-by-id response carries no `password` key — the projection never emits
the password, whatever the stored value. -/
theorem password_never_serialized (s : Store) (now : Nat) (p : CreatePayload) (id : Nat)
    (d : Json) :
    ((createUser p s now).1.body.lookup "data" = some d → "password" ∉ d.keys) ∧
    ((getUser id s).body.lookup "data" = some d → "password" ∉ d.keys) := by
  constructor
  · intro h
    unfold createUser at h
    split at h
    · split at h
      · simp [lookup_envFailure_data] at h
      · have hd : serializeUser (newUser p s now) = d := by
          simpa [lookup_envSuccess_data] using h
        subst hd
        rw [keys_serializeUser]
        decide
    · simp [lookup_envFailureDetails_data] at h
  · intro h
    unfold getUser at h
    split at h
    · next u _ =>
      have hd : serializeUser u = d := by simpa [lookup_envSuccess_data] using h
      subst hd
      rw [keys_serializeUser]
      decide
    · simp [lookup_envFailure_data] at h

/-- Witness for C1: the record returned by a concrete successful create
carries no `password` key. -/
theorem password_never_serialized_witness :
    "password" ∉
      (serializeUser (newUser ⟨some "Test User", some "test@example.com", some "password123"⟩
        emptyStore 0)).keys :=
  (password_never_serialized emptyStore 0
      ⟨some "Test User", some "test@example.com", some "password123"⟩ 1
      (serializeUser (newUser ⟨some "Test User", some "test@example.com", some "password123"⟩
        emptyStore 0))).1 rfl

/-- C2: creating against a store already holding the email fails with the
409 `DuplicateKey` failure and leaves the store untouched, and two valid
creates with the same email — in either order, the payloads being arbitrary
— yield exactly one 201 success (adding one record) and one 409 failure
(adding none). -/
theorem email_uniqueness_create (s : Store) (p q : CreatePayload) (n1 n2 : Nat)
    (hp : (validateCreate p).isEmpty = true)
    (hq : (validateCreate q).isEmpty = true)
    (he : emailNorm q = emailNorm p)
    (hfree : (s.users.any (fun u => u.email == emailNorm p)) = false) :
    (∀ s' : Store, (s'.users.any (fun u => u.email == emailNorm p)) = true →
        createUser p s' n1 = (⟨409, envFailure "Email already exists"⟩, s')) ∧
    (createUser p s n1).1.status = 201 ∧
    ((createUser p s n1).2).users.length = s.users.length + 1 ∧
    (createUser q (createUser p s n1).2 n2).1 = ⟨409, envFailure "Email already exists"⟩ ∧
    (createUser q (createUser p s n1).2 n2).2 = (createUser p s n1).2 := by
  have hfirst : createUser p s n1 =
      (⟨201, envSuccess (serializeUser (newUser p s n1))⟩,
       ⟨s.users ++ [newUser p s n1], s.nextId + 1⟩) := by
    unfold createUser
    rw [if_pos hp, if_neg (by simp [hfree])]
  have hdup : ((createUser p s n1).2.users.any (fun u => u.email == emailNorm q)) = true := by
    rw [hfirst]
    simp [newUser, he]
  have hdupgen : ∀ (r : CreatePayload) (s' : Store) (n : Nat),
      (validateCreate r).isEmpty = true →
      (s'.users.any (fun u => u.email == emailNorm r)) = true →
      createUser r s' n = (⟨409, envFailure "Email already exists"⟩, s') := by
    intro r s' n hr h'
    unfold createUser
    rw [if_pos hr, if_pos h']
  refine ⟨?_, ?_, ?_, ?_, ?_⟩
  · intro s' h'
    exact hdupgen p s' n1 hp h'
  · rw [hfirst]
  · rw [hfirst]
    simp
  · rw [hdupgen q _ n2 hq hdup]
  · rw [hdupgen q _ n2 hq hdup]

/-- Witness for C2: the duplicate-email scenario of the test suite — the
second create with `existing@example.com` is answered 409. -/
theorem email_uniqueness_create_witness :
    (createUser ⟨some "New User", some "existing@example.com", some "password123"⟩
      (createUser ⟨some "Existing User", some "existing@example.com", some "password123"⟩
        emptyStore 0).2 1).1 = ⟨409, envFailure "Email already exists"⟩ :=
  (email_uniqueness_create emptyStore
      ⟨some "Existing User", some "existing@example.com", some "password123"⟩
      ⟨some "New User", some "existing@example.com", some "password123"⟩ 0 1
      (by decide) (by decide) rfl rfl).2.2.2.1

/-- C5: any create or update payload with at least one field violation is
answered 400 with the `Validation failed` envelope whose details are the
`{field, message}` violations, and the store is returned unchanged; the
test-suite payloads produce the expected per-field violations. -/
theorem validation_failure_rejects_without_write (s : Store) (p : CreatePayload)
    (q : UpdatePayload) (id now : Nat) :
    ((validateCreate p).isEmpty = false →
      createUser p s now =
        (⟨400, envFailureDetails "Validation failed" (violationsJson (validateCreate p))⟩, s)) ∧
    ((validateUpdate q).isEmpty = false →
      updateUser id q s now =
        (⟨400, envFailureDetails "Validation failed" (violationsJson (validateUpdate q))⟩, s)) ∧
    (validateCreate ⟨some "", some "invalid-email", some "123"⟩).map (fun v => v.field) =
      ["name", "email", "password"] ∧
    validateCreate ⟨none, none, none⟩ =
      [⟨"name", "Name is required"⟩, ⟨"email", "Email is required"⟩,
       ⟨"password", "Password is required"⟩] := by
  refine ⟨?_, ?_, by decide, by decide⟩
  · intro h
    unfold createUser
    rw [if_neg (by simp [h])]
  · intro h
    unfold updateUser
    rw [if_neg (by simp [h])]

/-- Witness for C5: the invalid create payload of the test suite and an
empty-name update are both rejected with the store unchanged. -/
theorem validation_failure_witness :
    createUser ⟨some "", some "invalid-email", some "123"⟩ emptyStore 0 =
      (⟨400, envFailureDetails "Validation failed"
        (violationsJson (validateCreate ⟨some "", some "invalid-email", some "123"⟩))⟩,
       emptyStore) ∧
    updateUser 3 ⟨some "", none, none⟩ emptyStore 5 =
      (⟨400, envFailureDetails "Validation failed"
        (violationsJson (validateUpdate ⟨some "", none, none⟩))⟩, emptyStore) :=
  ⟨(validation_failure_rejects_without_write emptyStore
      ⟨some "", some "invalid-email", some "123"⟩ ⟨none, none, none⟩ 0 0).1 (by decide),
   (validation_failure_rejects_without_write emptyStore
      ⟨none, none, none⟩ ⟨some "", none, none⟩ 3 5).2.1 (by decide)⟩

/-- C9: deleting an existing id returns 200 with the snapshot of the deleted
record and hard-removes it, so a subsequent get for the same id is answered
404; deleting a non-existent id is answered 404 with the store unchanged. -/
theorem delete_then_get_not_found (s : Store) (id : Nat) :
    (∀ u : User, s.users.find? (fun v => v.id == id) = some u →
      deleteUser id s =
        (⟨200, envSuccess (serializeUser u)⟩,
         ⟨s.users.filter (fun v => !(v.id == id)), s.nextId⟩) ∧
      getUser id (deleteUser id s).2 = ⟨404, envFailure "User not found"⟩) ∧
    (s.users.find? (fun v => v.id == id) = none →
      deleteUser id s = (⟨404, envFailure "User not found"⟩, s)) := by
  constructor
  · intro u hu
    have hdel : deleteUser id s =
        (⟨200, envSuccess (serializeUser u)⟩,
         ⟨s.users.filter (fun v => !(v.id == id)), s.nextId⟩) := by
      unfold deleteUser
      rw [hu]
    refine ⟨hdel, ?_⟩
    rw [hdel]
    exact getUser_eq_notFound id _ (find?_filter_ne s.users id)
  · intro h
    unfold deleteUser
    rw [h]

/-- Witness for C9: deleting John Doe from the two-user store returns his
snapshot, the subsequent get is 404, and deleting the absent id 99 is
404. -/
theorem delete_then_get_not_found_witness :
    (deleteUser 1 johnJaneStore =
      (⟨200, envSuccess (serializeUser ⟨1, "John Doe", "john@example.com", "password123", true, 0, 0⟩)⟩,
       ⟨johnJaneStore.users.filter (fun v => !(v.id == 1)), johnJaneStore.nextId⟩) ∧
     getUser 1 (deleteUser 1 johnJaneStore).2 = ⟨404, envFailure "User not found"⟩) ∧
    deleteUser 99 johnJaneStore = (⟨404, envFailure "User not found"⟩, johnJaneStore) :=
  ⟨(delete_then_get_not_found johnJaneStore 1).1
      ⟨1, "John Doe", "john@example.com", "password123", true, 0, 0⟩ rfl,
   (delete_then_get_not_found johnJaneStore 99).2 rfl⟩

/-- `pagesFor` is exactly the ceiling of `total / limit`: it is large enough
to cover every record, and no smaller page count is. -/
theorem pagesFor_ceil (t l : Nat) (hl : 1 ≤ l) :
    t ≤ pagesFor t l * l ∧ ∀ m : Nat, t ≤ m * l → pagesFor t l ≤ m := by
  constructor
  · show t ≤ (t + l - 1) / l * l
    have key := Nat.div_add_mod (t + l - 1) l
    have hm : (t + l - 1) % l < l := Nat.mod_lt _ hl
    have hE : (t + l - 1) % l ≤ l - 1 := by omega
    have h3 : l * ((t + l - 1) / l) + (t + l - 1) % l ≤ l * ((t + l - 1) / l) + (l - 1) :=
      Nat.add_le_add_left hE _
    have h4 : t + l - 1 ≤ l * ((t + l - 1) / l) + (l - 1) := by
      rw [key] at h3
      exact h3
    have h5 : t + (l - 1) ≤ l * ((t + l - 1) / l) + (l - 1) := by
      have he : t + (l - 1) = t + l - 1 := by omega
      rw [he]
      exact h4
    have h6 : t ≤ l * ((t + l - 1) / l) := Nat.le_of_add_le_add_right h5
    calc t ≤ l * ((t + l - 1) / l) := h6
      _ = (t + l - 1) / l * l := Nat.mul_comm _ _
  · intro m hmt
    show (t + l - 1) / l ≤ m
    apply Nat.lt_succ_iff.mp
    apply (Nat.div_lt_iff_lt_mul hl).mpr
    rw [Nat.succ_mul m l]
    have h8 : t + l - 1 < t + l := by omega
    exact Nat.lt_of_lt_of_le h8 (Nat.add_le_add_right hmt l)

/-- C4: omitted `page` and `limit` default to 1 and 10, the returned data is
exactly the `skip = (page-1)*limit`, `take = limit` window of the matched
set, the pagination descriptor reports `{page, limit, total, pages}` with
`pages` the ceiling of `total / limit`, and page 2 with limit 5 over 15
records returns exactly 5 records with `pages = 3`. -/
theorem list_pagination_correct (s : Store) (q : ListQuery) (sr : Option String) (m : Nat)
    (hl : 1 ≤ q.limit.getD 10) :
    listUsers ⟨none, none, sr⟩ s = listUsers ⟨some 1, some 10, sr⟩ s ∧
    (listUsers q s).body.lookup "data" =
      some (.arr ((((matchedUsers q.search s.users).drop
        ((q.page.getD 1 - 1) * q.limit.getD 10)).take (q.limit.getD 10)).map serializeUser)) ∧
    pagField (listUsers q s) "page" = some (.num (q.page.getD 1)) ∧
    pagField (listUsers q s) "limit" = some (.num (q.limit.getD 10)) ∧
    pagField (listUsers q s) "total" = some (.num (matchedUsers q.search s.users).length) ∧
    pagField (listUsers q s) "pages" =
      some (.num (pagesFor (matchedUsers q.search s.users).length (q.limit.getD 10))) ∧
    ((matchedUsers q.search s.users).length ≤
        pagesFor (matchedUsers q.search s.users).length (q.limit.getD 10) * q.limit.getD 10 ∧
      ((matchedUsers q.search s.users).length ≤ m * q.limit.getD 10 →
        pagesFor (matchedUsers q.search s.users).length (q.limit.getD 10) ≤ m)) ∧
    dataLen (listUsers ⟨some 2, some 5, none⟩ (storeOf 15)) = 5 ∧
    pagField (listUsers ⟨some 2, some 5, none⟩ (storeOf 15)) "pages" = some (.num 3) := by
  refine ⟨rfl, rfl, rfl, rfl, rfl, rfl, ⟨?_, ?_⟩, by decide, rfl⟩
  · exact (pagesFor_ceil _ _ hl).1
  · exact fun hm => (pagesFor_ceil _ _ hl).2 m hm

/-- Witness for C4: the 15-record scenario of the test suite. -/
theorem list_pagination_correct_witness :
    dataLen (listUsers ⟨some 2, some 5, none⟩ (storeOf 15)) = 5 :=
  (list_pagination_correct (storeOf 15) ⟨some 2, some 5, none⟩ none 3
      (by decide)).2.2.2.2.2.2.2.1

/-- `seqStartsWith` decides exactly the is-a-leading-segment relation. -/
theorem seqStartsWith_iff (n : List Char) :
    ∀ h : List Char, seqStartsWith n h = true ↔ ∃ r, n ++ r = h := by
  induction n with
  | nil =>
    intro h
    constructor
    · intro _
      exact ⟨h, rfl⟩
    · intro _
      rfl
  | cons a as ih =>
    intro h
    cases h with
    | nil =>
      constructor
      · intro hc
        exact absurd hc (by simp [seqStartsWith])
      · rintro ⟨r, hr⟩
        exact absurd hr (by simp)
    | cons b bs =>
      simp only [seqStartsWith, Bool.and_eq_true, beq_iff_eq, ih bs, List.cons_append,
        List.cons.injEq]
      constructor
      · rintro ⟨hab, r, hr⟩
        exact ⟨r, hab, hr⟩
      · rintro ⟨r, hab, hr⟩
        exact ⟨hab, r, hr⟩

/-- `seqContains` decides exactly the contiguous-substring relation. -/
theorem seqContains_iff (n : List Char) :
    ∀ h : List Char, seqContains n h = true ↔ ∃ p q, p ++ n ++ q = h := by
  intro h
  induction h with
  | nil =>
    cases n with
    | nil =>
      constructor
      · intro _
        exact ⟨[], [], rfl⟩
      · intro _
        rfl
    | cons c t =>
      constructor
      · intro hc
        exact absurd hc (by simp [seqContains])
      · rintro ⟨p, q, hpq⟩
        exact absurd hpq (by cases p <;> simp)
  | cons c t ih =>
    simp only [seqContains, Bool.or_eq_true, seqStartsWith_iff, ih]
    constructor
    · rintro (⟨r, hr⟩ | ⟨p, q, hpq⟩)
      · exact ⟨[], r, by simpa using hr⟩
      · exact ⟨c :: p, q, by simp [hpq]⟩
    · rintro ⟨p, q, hpq⟩
      cases p with
      | nil =>
        left
        exact ⟨q, by simpa using hpq⟩
      | cons c' p' =>
        right
        simp only [List.cons_append, List.cons.injEq] at hpq
        exact ⟨p', q, hpq.2⟩

/-- C6: the matched set of a search is exactly the records whose lower-cased
`name` or `email` contains the lower-cased search term as a contiguous
substring; searching `john` over John Doe and Jane Smith returns exactly
John Doe. -/
theorem search_matches_name_or_email_ci (s : Store) (t : String) (u : User) :
    (u ∈ matchedUsers (some t) s.users ↔
      u ∈ s.users ∧
        ((∃ a b, a ++ (lowerString t).data ++ b = (lowerString u.name).data) ∨
         (∃ a b, a ++ (lowerString t).data ++ b = (lowerString u.email).data))) ∧
    (listUsers ⟨none, none, some "john"⟩ johnJaneStore).body.lookup "data" =
      some (.arr [serializeUser ⟨1, "John Doe", "john@example.com", "password123", true, 0, 0⟩]) := by
  constructor
  · simp only [matchedUsers]
    rw [List.mem_filter]
    simp only [matchesSearch, containsCI, Bool.or_eq_true, seqContains_iff]
  · rfl
